import Mathlib

/-!
Shallow embedding of `src/census.py`, a Census Bureau data-catalog client built
on `requests` and `pandas`, together with proofs of the specified properties.

Modelling conventions:
* HTTP is modelled by passing a response (or a responder function from URL to
  response) explicitly; `HttpResponse` carries the status code and the parsed
  JSON body.
* A pandas cell is `Option PyVal`; `none` models `NaN`/`NaT` (a missing value).
* Python exceptions are modelled with `Except`.  The catalog client raises
  bare `Exception(...)` objects whose messages distinguish the failure modes;
  `CensusError` names those modes following the messages: `catalogFetchError`
  models `Exception("Failed to get a valid response; status_code: ...")`,
  `catalogShapeError` models `Exception("field 'dataset' not found ...")`,
  `valueError` models the `ValueError` raised inside `pd.to_datetime` /
  `pd.concat`, `notFoundError` models the `IndexError` raised by `.values[0]`
  on an empty selection, and `formatError` models the `ValueError` raised by
  `datetime.strptime` on a non-matching string.  `PyError` models the Python
  runtime errors (`TypeError`, `KeyError`) raised by the dataset-source
  detail-table accessors.
* Dataset elements are modelled with the catalog-schema fields the claims
  touch (`identifier`, `title`, `modified`, `c_vintage`, the five boolean
  facets, `distribution`); the remaining passthrough columns behave exactly
  like `title` and are elided.
-/

namespace Census

/-- Python values that appear in a pandas cell in this program: strings,
booleans, integers, and the value-code dictionaries of the variables
endpoint. -/
inductive PyVal where
  | pstr (s : String)
  | pbool (b : Bool)
  | pint (n : Int)
  | pdict (entries : List (String × String))
deriving Repr, DecidableEq

/-- A pandas cell; `none` models `NaN` (missing). -/
abbrev Cell := Option PyVal

/-- Failure modes of the catalog client (see the module docstring for the
correspondence with the exceptions the Python code actually raises). -/
inductive CensusError where
  | catalogFetchError (status : Nat)
  | catalogShapeError
  | valueError (msg : String)
  | notFoundError
  | formatError
deriving Repr, DecidableEq

/-- Python runtime errors raised by the dataset-source detail accessors:
`typeError` models subscripting `None` (`None["variables"]`), `keyError`
models a missing dataframe column or dict key. -/
inductive PyError where
  | typeError
  | keyError (key : String)
deriving Repr, DecidableEq

/-- An HTTP response as seen by this client: status code and parsed JSON body. -/
structure HttpResponse (β : Type) where
  status : Nat
  body : β
deriving Repr, DecidableEq

/-! ### `CensusDatasetSource` (census.py lines 11-73) -/

/-- The constructor state of `CensusDatasetSource.__init__`: the base API URL
and the media type (default `"json"`).  The base URL cell is `Option String`
because the catalog row it is read from can hold `NaN` (`none`) when the
dataset had no distribution entry. -/
structure CensusDatasetSource where
  base_api_call : Option String
  media_type : String := "json"
deriving Repr, DecidableEq

/-- How a Python f-string renders the base-URL cell: a float `NaN` prints as
`"nan"`. -/
def cellStr : Option String → String
  | some s => s
  | none => "nan"

/-- `get_detail_url`: the f-string
`f"{self.base_api_call}/{detail_type}.{self.media_type}"`. -/
def CensusDatasetSource.get_detail_url (src : CensusDatasetSource)
    (detail_type : String) : String :=
  cellStr src.base_api_call ++ "/" ++ detail_type ++ "." ++ src.media_type

/-- The `variables_url` property. -/
def CensusDatasetSource.variables_url (src : CensusDatasetSource) : String :=
  src.get_detail_url "variables"

/-- The `geographies_url` property (detail type `"geography"`). -/
def CensusDatasetSource.geographies_url (src : CensusDatasetSource) : String :=
  src.get_detail_url "geography"

/-- The `groups_url` property. -/
def CensusDatasetSource.groups_url (src : CensusDatasetSource) : String :=
  src.get_detail_url "groups"

/-- `re.sub("\.html$", ".json", url)`: replace a trailing `".html"` (5
characters) with `".json"`; other URLs pass through unchanged. -/
def normalizeHtmlSuffix (url : String) : String :=
  if url.endsWith ".html" then url.dropRight 5 ++ ".json" else url

/-- `get_url_response` (lines 43-51).  Normalizes the URL, issues the GET, and
on status 200 returns the parsed body; on any other status it prints a
diagnostic and returns `None` — it raises nothing.  The result is the pair
(returned value, printed lines) together with the instance after the call;
the method reads only `self`-independent data and mutates nothing, which the
returned instance records. -/
def CensusDatasetSource.get_url_response {β : Type} (src : CensusDatasetSource)
    (http : String → HttpResponse β) (url : String) :
    (Option β × List String) × CensusDatasetSource :=
  let api_call := normalizeHtmlSuffix url
  let resp := http api_call
  if resp.status = 200 then
    ((some resp.body, []), src)
  else
    ((none, ["Failed to get a valid response; status code: " ++ toString resp.status]), src)

/-- The parsed JSON body of the variables endpoint: its `"variables"` field
maps each variable name to a record (a dict from field name to value). -/
structure VariablesBody where
  variables_field : List (String × List (String × PyVal))
deriving Repr, DecidableEq

/-- Distinct elements of a list in order of first appearance.  Models the
iteration order of a Python dict/`Counter` (keys in first-insertion order)
and the index union built by `pd.DataFrame` from a dict of dicts. -/
def firstSeen {α : Type} [DecidableEq α] : List α → List α
  | [] => []
  | x :: xs => x :: (firstSeen xs).filter (fun y => !decide (y = x))

/-- Reading one field of one variable record; a field the record does not
carry is a `NaN` cell. -/
def lookupField (record : List (String × PyVal)) (c : String) : Cell :=
  (record.find? (fun kv => kv.1 == c)).map (fun kv => kv.2)

/-- The dataframe produced by `variables_df`: the `"variable"` index column
(one row per variable name) plus the data columns. -/
structure VarsFrame where
  columns : List String
  rows : List (String × List Cell)
deriving Repr, DecidableEq

/-- Apply `f` to the cells of column `target`, leaving other columns
unchanged (a single-column assignment on a dataframe row). -/
def mapColumn (columns : List String) (target : String) (f : Cell → Cell)
    (cells : List Cell) : List Cell :=
  (columns.zip cells).map (fun p => if p.1 == target then f p.2 else p.2)

/-- Lines 56-61: `pd.DataFrame(resp_json["variables"]).T` (columns are the
union of the record field names, one row per variable, missing fields `NaN`),
`reset_index` into a `"variable"` column, then
`variables_df["predicateOnly"].fillna(False)` and
`variables_df["values"].fillna({})`.  Reading a column that does not exist
raises `KeyError`; `Series.fillna` with a dict argument maps row labels to
fill values, so `fillna({})` fills nothing. -/
def build_variables_frame (vars : List (String × List (String × PyVal))) :
    Except PyError VarsFrame :=
  let columns := firstSeen (vars.flatMap (fun v => v.2.map (fun kv => kv.1)))
  let rows := vars.map (fun v => (v.1, columns.map (lookupField v.2)))
  if columns.contains "predicateOnly" then
    let rows1 := rows.map (fun v => (v.1,
      mapColumn columns "predicateOnly"
        (fun c => some (c.getD (PyVal.pbool false))) v.2))
    if columns.contains "values" then
      Except.ok { columns := columns, rows := rows1 }
    else
      Except.error (PyError.keyError "values")
  else
    Except.error (PyError.keyError "predicateOnly")

/-- The `variables_df` property (lines 53-61): fetches the variables endpoint
and builds the frame.  When the fetch failed, `variables_resp_json` is `None`
and `None["variables"]` raises `TypeError`. -/
def CensusDatasetSource.variables_df (src : CensusDatasetSource)
    (http : String → HttpResponse VariablesBody) : Except PyError VarsFrame :=
  match (src.get_url_response http src.variables_url).1.1 with
  | none => Except.error PyError.typeError
  | some body => build_variables_frame body.variables_field

/-- The parsed JSON body of the geography endpoint: a `"fips"` list of
geography-level records. -/
structure GeoBody where
  fips : List (List (String × Cell))
deriving Repr, DecidableEq

/-- The `geographies_df` property (lines 63-67): `pd.DataFrame(json["fips"])`,
one row per entry.  A failed fetch gives `None["fips"]`: `TypeError`. -/
def CensusDatasetSource.geographies_df (src : CensusDatasetSource)
    (http : String → HttpResponse GeoBody) :
    Except PyError (List (List (String × Cell))) :=
  match (src.get_url_response http src.geographies_url).1.1 with
  | none => Except.error PyError.typeError
  | some body => Except.ok body.fips

/-- The parsed JSON body of the groups endpoint: a `"groups"` list of group
descriptors. -/
structure GroupsBody where
  groups : List (List (String × Cell))
deriving Repr, DecidableEq

/-- The `groups_df` property (lines 69-73): computes
`pd.DataFrame(json["groups"])` into a local and then executes a bare
`return`, so the method yields `None` and the computed frame is discarded.
A failed fetch gives `None["groups"]`: `TypeError`. -/
def CensusDatasetSource.groups_df (src : CensusDatasetSource)
    (http : String → HttpResponse GroupsBody) :
    Except PyError (Option (List (List (String × Cell)))) :=
  match (src.get_url_response http src.groups_url).1.1 with
  | none => Except.error PyError.typeError
  | some body =>
    let _groups_frame := body.groups
    Except.ok none

/-! ### Datetime parsing and rendering

`CensusAPICatalog.standardize_datetime_str_repr` uses CPython
`datetime.strptime(s, "%Y-%m-%dT%H:%M:%S.%fZ")` and
`datetime.strftime("%Y-%m-%dT%H:%M:%SZ")`; `set_dataset_metadata` uses
`pd.to_datetime` on the `"modified"` column.  The parsers below follow
CPython `_strptime`'s compiled regular expression for that format directive
by directive, and `pd.to_datetime`'s ISO-8601 path for the catalog strings. -/

/-- Numeric value of a decimal digit character. -/
def digit? (c : Char) : Option Nat :=
  if c.isDigit then some (c.toNat - 48) else none

/-- `%Y` in CPython `_strptime`: exactly four digits. -/
def parse4digits : List Char → Option (Nat × List Char)
  | c1 :: c2 :: c3 :: c4 :: rest => do
    let d1 ← digit? c1
    let d2 ← digit? c2
    let d3 ← digit? c3
    let d4 ← digit? c4
    some (1000 * d1 + 100 * d2 + 10 * d3 + d4, rest)
  | _ => none

/-- Exactly two digits (the zero-padded fields of an ISO-8601 timestamp as
`pd.to_datetime` reads them). -/
def parse2digits : List Char → Option (Nat × List Char)
  | c1 :: c2 :: rest => do
    let d1 ← digit? c1
    let d2 ← digit? c2
    some (10 * d1 + d2, rest)
  | _ => none

/-- Consume one expected literal character. -/
def expectChar (c : Char) : List Char → Option (List Char)
  | d :: rest => if d = c then some rest else none
  | [] => none

/-- Consume one expected literal character CASE-INSENSITIVELY: CPython
`_strptime.TimeRE` compiles the whole format regex with `re.IGNORECASE`, so
the letter literals `T` and `Z` also match their lowercase forms.  For the
ASCII letters at issue, comparing `Char.toLower` images is exact. -/
def expectCharCI (c : Char) : List Char → Option (List Char)
  | d :: rest => if d.toLower = c.toLower then some rest else none
  | [] => none

/-- A one-or-two-digit `_strptime` directive (such as
`%m ↦ 1[0-2]|0[1-9]|[1-9]`): when two digits are ahead the two-digit
alternative must match (`ok2`); a lone digit is accepted when its value
matches the single-digit alternative (`ok1`).  In the format used here every
directive is followed by a non-digit literal, so regex backtracking can never
rescue a failed two-digit match and this deterministic reading is exact. -/
def parseField2 (ok2 ok1 : Nat → Bool) : List Char → Option (Nat × List Char)
  | c1 :: c2 :: rest =>
    match digit? c1, digit? c2 with
    | some d1, some d2 =>
      if ok2 (10 * d1 + d2) then some (10 * d1 + d2, rest) else none
    | some d1, none => if ok1 d1 then some (d1, c2 :: rest) else none
    | none, _ => none
  | [c1] =>
    match digit? c1 with
    | some d1 => if ok1 d1 then some (d1, []) else none
    | none => none
  | [] => none

/-- The maximal run of leading digits. -/
def takeDigits : List Char → List Nat × List Char
  | [] => ([], [])
  | c :: rest =>
    match digit? c with
    | some d =>
      let (ds, r) := takeDigits rest
      (d :: ds, r)
    | none => ([], c :: rest)

/-- Decimal value of a digit run. -/
def fracValue (ds : List Nat) : Nat :=
  ds.foldl (fun acc d => acc * 10 + d) 0

/-- `%f` in `_strptime`: one to six digits, right-padded with zeros to a
microsecond count. -/
def parseFrac (cs : List Char) : Option (Nat × List Char) :=
  let (ds, r) := takeDigits cs
  if 1 ≤ ds.length ∧ ds.length ≤ 6 then
    some (fracValue ds * 10 ^ (6 - ds.length), r)
  else none

/-- Gregorian leap year. -/
def isLeap (y : Nat) : Bool :=
  (y % 4 == 0 && y % 100 != 0) || y % 400 == 0

/-- Days in a month, as `datetime`'s constructor validates them. -/
def daysInMonth (y m : Nat) : Nat :=
  if m = 2 then (if isLeap y then 29 else 28)
  else if m = 4 ∨ m = 6 ∨ m = 9 ∨ m = 11 then 30
  else 31

/-- A Python `datetime.datetime` value (naive; this program never sets a
timezone). -/
structure PyDatetime where
  year : Nat
  month : Nat
  day : Nat
  hour : Nat
  minute : Nat
  second : Nat
  microsecond : Nat
deriving Repr, DecidableEq

/-- The character of a decimal digit. -/
def digitChar (n : Nat) : Char := Char.ofNat (48 + n % 10)

/-- Two-digit zero-padded rendering (`%m`, `%d`, `%H`, `%M`, `%S`). -/
def pad2Chars (n : Nat) : List Char := [digitChar (n / 10), digitChar n]

/-- Four-digit zero-padded rendering (`%Y`). -/
def pad4Chars (n : Nat) : List Char :=
  [digitChar (n / 1000), digitChar (n / 100), digitChar (n / 10), digitChar n]

/-- Six-digit zero-padded rendering (`%f`). -/
def pad6Chars (n : Nat) : List Char :=
  [digitChar (n / 100000), digitChar (n / 10000), digitChar (n / 1000),
    digitChar (n / 100), digitChar (n / 10), digitChar n]

/-- `datetime.strftime("%Y-%m-%dT%H:%M:%SZ")`: the canonical second-precision
rendering; microseconds are simply not printed. -/
def strftime_ymdhms_z (d : PyDatetime) : String :=
  String.mk (pad4Chars d.year ++ '-' :: pad2Chars d.month ++ '-' :: pad2Chars d.day
    ++ 'T' :: pad2Chars d.hour ++ ':' :: pad2Chars d.minute ++ ':' :: pad2Chars d.second
    ++ ['Z'])

/-- CPython `datetime.strptime(s, "%Y-%m-%dT%H:%M:%S.%fZ")`: the compiled
regex (four-digit `%Y`, one-or-two-digit `%m %d %H %M %S` with the
alternations shown at `parseField2`, one-to-six-digit `%f`, literal
separators, full match), followed by the `datetime` constructor's range
checks (year at least `MINYEAR`, day valid for the month, seconds at most
59 even though the regex admits 60 and 61).  `_strptime` compiles with
`re.IGNORECASE`, so the letter literals `T` and `Z` also match lowercase
(`expectCharCI`); the non-letter literals are unaffected by case.  This
model reads ASCII digits (`digit?`), while CPython's `\d` also matches
non-ASCII Unicode decimal digits: on strings of ASCII characters — all the
program's own renderings and the claim's examples — the model is exact, and
the failure theorem below is stated for that domain. -/
def strptime_iso_micro_z (s : String) : Option PyDatetime := do
  let (y, r1) ← parse4digits s.data
  let r2 ← expectChar '-' r1
  let (m, r3) ← parseField2 (fun v => decide (1 ≤ v) && decide (v ≤ 12))
    (fun v => decide (1 ≤ v) && decide (v ≤ 9)) r2
  let r4 ← expectChar '-' r3
  let (d, r5) ← parseField2 (fun v => decide (1 ≤ v) && decide (v ≤ 31))
    (fun v => decide (1 ≤ v) && decide (v ≤ 9)) r4
  let r6 ← expectCharCI 'T' r5
  let (h, r7) ← parseField2 (fun v => decide (v ≤ 23)) (fun _ => true) r6
  let r8 ← expectChar ':' r7
  let (mi, r9) ← parseField2 (fun v => decide (v ≤ 59)) (fun _ => true) r8
  let r10 ← expectChar ':' r9
  let (sec, r11) ← parseField2 (fun v => decide (v ≤ 61)) (fun _ => true) r10
  let r12 ← expectChar '.' r11
  let (us, r13) ← parseFrac r12
  let r14 ← expectCharCI 'Z' r13
  if r14 = [] ∧ 1 ≤ y ∧ d ≤ daysInMonth y m ∧ sec ≤ 59 then
    some ⟨y, m, d, h, mi, sec, us⟩
  else none

/-- `standardize_datetime_str_repr` (lines 168-171): a string argument goes
through `strptime` with `"%Y-%m-%dT%H:%M:%S.%fZ"` (raising `ValueError`,
modelled `formatError`, when it does not match); the resulting — or directly
given — `datetime` is rendered with `"%Y-%m-%dT%H:%M:%SZ"`. -/
def standardize_datetime_str_repr (datetime_obj : String ⊕ PyDatetime) :
    Except CensusError String :=
  match datetime_obj with
  | Sum.inl s =>
    match strptime_iso_micro_z s with
    | some d => Except.ok (strftime_ymdhms_z d)
    | none => Except.error CensusError.formatError
  | Sum.inr d => Except.ok (strftime_ymdhms_z d)

/-! ### `CensusAPICatalog` (census.py lines 75-171) -/

/-- One entry of a dataset's `"distribution"` array (only the access URL is
consumed by this program). -/
structure DistributionRecord where
  accessURL : String
deriving Repr, DecidableEq

/-- One element of the catalog's `"dataset"` array, restricted to the fields
the verified properties touch; `none` in an optional field models the key
being absent from the JSON object (a `NaN` cell after `pd.json_normalize` /
`pd.concat`). -/
structure DatasetElem where
  identifier : String
  title : String
  modified : Option String
  c_vintage : Option Int
  c_isAggregate : Option Bool
  c_isCube : Option Bool
  c_isAvailable : Option Bool
  c_isTimeseries : Option Bool
  c_isMicrodata : Option Bool
  distribution : List DistributionRecord
deriving Repr, DecidableEq

/-- The parsed top-level catalog document: `dataset := none` models a JSON
object without a `"dataset"` key. -/
structure CatalogJson where
  dataset : Option (List DatasetElem)
deriving Repr, DecidableEq

/-- One row of the wide `dataset_metadata` table: `modified` is the parsed
timestamp (a `pd.Timestamp`, encoded as a `Nat` that orders chronologically;
`none` is `NaT`), and `distribution_accessURL` is the flattened first
distribution entry (`none` when the `"distribution"` array was empty and
`.str[0]` produced `NaN`). -/
structure MetadataRow where
  identifier : String
  title : String
  modified : Option Nat
  c_vintage : Option Int
  c_isAggregate : Option Bool
  c_isCube : Option Bool
  c_isAvailable : Option Bool
  c_isTimeseries : Option Bool
  c_isMicrodata : Option Bool
  distribution_accessURL : Option String
deriving Repr, DecidableEq

/-- Chronologically-ordered encoding of a timestamp's fields (the radices
strictly bound each field, so the encoding is lexicographic). -/
def encodeDatetime (y m d h mi sec us : Nat) : Nat :=
  ((((((y * 13 + m) * 32 + d) * 24 + h) * 60 + mi) * 62 + sec) * 1000000) + us

/-- The `THH:MM:SS[.ffffff][Z]` tail of an ISO-8601 string as
`pd.to_datetime` reads it. -/
def parseTimePart (cs : List Char) : Option (Nat × Nat × Nat × Nat) := do
  let (h, r1) ← parse2digits cs
  let r2 ← expectChar ':' r1
  let (mi, r3) ← parse2digits r2
  let r4 ← expectChar ':' r3
  let (sec, r5) ← parse2digits r4
  let (us, r6) ←
    match r5 with
    | '.' :: rest => parseFrac rest
    | _ => some (0, r5)
  let r7 :=
    match r6 with
    | 'Z' :: rest => rest
    | _ => r6
  if r7 = [] ∧ h ≤ 23 ∧ mi ≤ 59 ∧ sec ≤ 59 then some (h, mi, sec, us) else none

/-- `pd.to_datetime` on one `"modified"` cell, restricted to the ISO-8601
shapes the catalog carries: `YYYY-MM-DD` with an optional `THH:MM:SS`,
optional fractional seconds and optional `Z`.  pandas additionally falls
back to dateutil for further formats, so this model's acceptance is a
SUBSET of pandas' — every string the model parses, pandas parses, and the
parse-success hypotheses of the theorems below quantify over this subset
only.  A string no format reaches is unparseable: pandas raises
`ValueError` (`errors="raise"` is the default), modelled by `none` here and
surfaced as `valueError` by the caller; the concrete counterexample string
`"not-a-date"` is rejected by the dateutil fallback as well. -/
def pdToDatetime (s : String) : Option Nat := do
  let (y, r1) ← parse4digits s.data
  let r2 ← expectChar '-' r1
  let (m, r3) ← parse2digits r2
  let r4 ← expectChar '-' r3
  let (d, r5) ← parse2digits r4
  let (hmsu : Nat × Nat × Nat × Nat) ←
    match r5 with
    | [] => some ((0, 0, 0, 0) : Nat × Nat × Nat × Nat)
    | 'T' :: rest => parseTimePart rest
    | _ => none
  if 1 ≤ m ∧ m ≤ 12 ∧ 1 ≤ d ∧ d ≤ daysInMonth y m then
    some (encodeDatetime y m d hmsu.1 hmsu.2.1 hmsu.2.2.1 hmsu.2.2.2)
  else none

/-- The row `pd.json_normalize` + the first-distribution merge produce for
one dataset element, given its parsed `modified` timestamp. -/
def rawRow (e : DatasetElem) (t : Option Nat) : MetadataRow :=
  { identifier := e.identifier
    title := e.title
    modified := t
    c_vintage := e.c_vintage
    c_isAggregate := e.c_isAggregate
    c_isCube := e.c_isCube
    c_isAvailable := e.c_isAvailable
    c_isTimeseries := e.c_isTimeseries
    c_isMicrodata := e.c_isMicrodata
    distribution_accessURL := (e.distribution.head?).map (fun dr => dr.accessURL) }

/-- `pd.to_datetime(full_df["modified"])` on one cell: `NaN` becomes `NaT`,
an unparseable string raises. -/
def parseModified (e : DatasetElem) : Except CensusError (Option Nat) :=
  match e.modified with
  | none => Except.ok none
  | some s =>
    match pdToDatetime s with
    | some t => Except.ok (some t)
    | none => Except.error (CensusError.valueError s)

/-- The per-element loop of `set_dataset_metadata` (normalize each element,
concatenate, convert the `modified` column): one row per element, aborting
with the `pd.to_datetime` error if any present `modified` string is
unparseable. -/
def buildRows : List DatasetElem → Except CensusError (List MetadataRow)
  | [] => Except.ok []
  | e :: rest => do
    let t ← parseModified e
    let rows ← buildRows rest
    Except.ok (rawRow e t :: rows)

/-- The descending key order on the non-null `modified` block (the `getD`
default is irrelevant: the relation is only ever used on rows whose
`modified` is present). -/
def modDescLE (a b : MetadataRow) : Prop :=
  b.modified.getD 0 ≤ a.modified.getD 0

instance : DecidableRel modDescLE := fun a b => by
  unfold modDescLE; infer_instance

/-- `full_df.sort_values(by="modified", ascending=False, ignore_index=True)`.
For `ascending=False` pandas `nargsort` reverses the non-null values AND
their indices before argsorting and reverses the resulting indexer after:
the two reversals cancel on ties, so the net effect is a STABLE descending
sort of the non-null rows — ties keep their insertion order whenever the
argsort kernel is stable (numpy's insertion sort on the small blocks
arising here) — with the null positions appended last in their original
order (`na_position="last"`).  Modelled with the stable
`List.insertionSort` under the descending key order, then the `NaT` rows. -/
def sort_values_modified_desc (rows : List MetadataRow) : List MetadataRow :=
  let non_nan := rows.filter (fun r => r.modified.isSome)
  let nan := rows.filter (fun r => r.modified.isNone)
  List.insertionSort modDescLE non_nan ++ nan

/-- `set_dataset_metadata` (lines 90-153): requires the `"dataset"` key
(else raises, modelled `catalogShapeError`), normalizes every element into
one row, converts `"modified"`, selects/renames the fixed column set, merges
the flattened first distribution, and sorts by `modified` descending.
`pd.concat` of an empty list raises `ValueError`. -/
def set_dataset_metadata (catalog_json : CatalogJson) :
    Except CensusError (List MetadataRow) :=
  match catalog_json.dataset with
  | none => Except.error CensusError.catalogShapeError
  | some datasets =>
    if datasets.isEmpty then
      Except.error (CensusError.valueError "No objects to concatenate")
    else do
      let rows ← buildRows datasets
      Except.ok (sort_values_modified_desc rows)

/-- The state a successfully constructed `CensusAPICatalog` holds. -/
structure CensusAPICatalog where
  data_catalog_json : CatalogJson
  dataset_metadata : List MetadataRow
deriving Repr, DecidableEq

/-- `CensusAPICatalog.__init__`: `set_data_catalog_json` (GET `data.json`;
non-200 raises with the status code in the message, modelled
`catalogFetchError status`) followed by `set_dataset_metadata`.  Any raise
leaves no constructed object, hence no (partial) `dataset_metadata` table. -/
def censusAPICatalog_init (resp : HttpResponse CatalogJson) :
    Except CensusError CensusAPICatalog :=
  if resp.status = 200 then
    match set_dataset_metadata resp.body with
    | Except.ok rows => Except.ok ⟨resp.body, rows⟩
    | Except.error e => Except.error e
  else
    Except.error (CensusError.catalogFetchError resp.status)

/-- The descending-count order `sorted(label_counts.items(), key=lambda x:
x[1], reverse=True)` establishes. -/
def countLE (a b : String × Nat) : Prop := b.2 ≤ a.2

instance : DecidableRel countLE := fun a b => by
  unfold countLE; infer_instance

/-- `get_counts_of_nested_data_elements` (lines 155-160): flatten the
per-dataset label lists, count with `Counter` (first-seen key order), and
sort the pairs by count descending.  Python's `sorted` is stable also with
`reverse=True`, modelled by the stable `List.insertionSort`. -/
def get_counts_of_nested_data_elements (datasets : List (List String)) :
    List (String × Nat) :=
  let flat := datasets.flatten
  let label_counts := (firstSeen flat).map (fun l => (l, flat.count l))
  List.insertionSort countLE label_counts

/-- `get_dataset_source` (lines 162-166): select the rows whose
`identifier` column equals the argument, take `.values[0]` of their
`distribution_accessURL` (an empty selection raises `IndexError`, modelled
`notFoundError`; with several matches the first row wins), and construct the
source from that URL. -/
def CensusAPICatalog.get_dataset_source (cat : CensusAPICatalog)
    (identifier : String) (media_type : String := "json") :
    Except CensusError CensusDatasetSource :=
  match cat.dataset_metadata.filter (fun r => r.identifier == identifier) with
  | [] => Except.error CensusError.notFoundError
  | r :: _ => Except.ok ⟨r.distribution_accessURL, media_type⟩

/-! ### `CensusAPIHandler.prepare_dataset_metadata_df` (census.py lines 174-229) -/

/-- One row of the projected, externally-facing metadata table. -/
structure PreparedRow where
  identifier : String
  title : String
  modified : Option Nat
  vintage : Option String
  is_microdata : Bool
  is_aggregate : Bool
  is_cube : Bool
  is_available : Bool
  is_timeseries : Bool
  distribution_access_url : Option String
  time_of_check : String
deriving Repr, DecidableEq

/-- `fillna(False).astype(bool)` on one boolean facet cell. -/
def coerceFacetBool (c : Option Bool) : Bool := c.getD false

/-- The vintage coercion of lines 225-227: save the null mask,
`fillna(-1).astype(int).astype(str)`, then set the masked rows back to
`None` — so a present vintage becomes its decimal string and an absent one
stays an explicit `None`, never the string `"-1"`. -/
def coerceVintage (v : Option Int) : Option String :=
  let filled := v.getD (-1)
  let rendered := toString filled
  match v with
  | none => none
  | some _ => some rendered

/-- The projection of one wide row into the external schema, stamped with
the handler's `time_of_check`. -/
def prepare_row (time_of_check : String) (r : MetadataRow) : PreparedRow :=
  { identifier := r.identifier
    title := r.title
    modified := r.modified
    vintage := coerceVintage r.c_vintage
    is_microdata := coerceFacetBool r.c_isMicrodata
    is_aggregate := coerceFacetBool r.c_isAggregate
    is_cube := coerceFacetBool r.c_isCube
    is_available := coerceFacetBool r.c_isAvailable
    is_timeseries := coerceFacetBool r.c_isTimeseries
    distribution_access_url := r.distribution_accessURL
    time_of_check := time_of_check }

/-- `prepare_dataset_metadata_df` (lines 180-229): select/rename the fixed
column subset, coerce the five boolean facets with `fillna(False)`, coerce
vintage as above, and stamp every row with the capture time. -/
def prepare_dataset_metadata_df (time_of_check : String)
    (rows : List MetadataRow) : List PreparedRow :=
  rows.map (prepare_row time_of_check)

/-! ### Helper lemmas -/

/-- A stable sort leaves any class of mutually tied elements in its original
relative order: filtering the sorted list by a predicate all of whose
satisfying elements are mutually `r`-related gives the same list as
filtering the input. -/
theorem filter_insertionSort_of_ties {α : Type} (r : α → α → Prop) [DecidableRel r]
    (p : α → Bool) (l : List α)
    (hties : ∀ a b, p a = true → p b = true → r a b) :
    (List.insertionSort r l).filter p = l.filter p := by
  have hpw : (l.filter p).Pairwise r :=
    List.pairwise_of_forall_mem_list (fun a ha b hb =>
      hties a b (List.of_mem_filter ha) (List.of_mem_filter hb))
  have hsub : List.Sublist (l.filter p) (List.insertionSort r l) :=
    List.sublist_insertionSort hpw (List.filter_sublist l)
  have hsub2 : List.Sublist ((l.filter p).filter p)
      ((List.insertionSort r l).filter p) :=
    hsub.filter p
  have hidem : (l.filter p).filter p = l.filter p := by
    rw [List.filter_filter]
    exact List.filter_congr (fun a _ => Bool.and_self (p a))
  rw [hidem] at hsub2
  have hlen : ((List.insertionSort r l).filter p).length = (l.filter p).length :=
    ((List.perm_insertionSort r l).filter p).length_eq
  exact (hsub2.eq_of_length hlen.symm).symm

/-- `firstSeen` keeps exactly the elements of the list. -/
theorem mem_firstSeen {α : Type} [DecidableEq α] (a : α) (l : List α) :
    a ∈ firstSeen l ↔ a ∈ l := by
  induction l with
  | nil => exact Iff.rfl
  | cons x xs ih =>
    unfold firstSeen
    simp only [List.mem_cons, List.mem_filter, ih, Bool.not_eq_true',
      decide_eq_false_iff_not]
    by_cases h : a = x <;> simp [h]

/-- `firstSeen` has no duplicates. -/
theorem nodup_firstSeen {α : Type} [DecidableEq α] (l : List α) :
    (firstSeen l).Nodup := by
  induction l with
  | nil => exact List.nodup_nil
  | cons x xs ih =>
    unfold firstSeen
    refine List.nodup_cons.mpr ⟨?_, List.Nodup.filter _ ih⟩
    intro hmem
    have h := (List.mem_filter.mp hmem).2
    simp at h

/-! ### Claim theorems -/

/-- C3: for every URL, when the detail GET returns a status other than 200,
`get_url_response` does not raise: it returns `None` together with a printed
diagnostic, the instance is unchanged (it holds no fetch state), and a
subsequent detail fetch on the same `CensusDatasetSource` behaves exactly as
it would have without the earlier failure. -/
theorem get_url_response_non200_isolated {β : Type} (src : CensusDatasetSource)
    (http http2 : String → HttpResponse β) (url url2 : String)
    (h : (http (normalizeHtmlSuffix url)).status ≠ 200) :
    (src.get_url_response http url).1.1 = none ∧
    (src.get_url_response http url).1.2 ≠ [] ∧
    (src.get_url_response http url).2 = src ∧
    ((src.get_url_response http url).2).get_url_response http2 url2 =
      src.get_url_response http2 url2 := by
  unfold CensusDatasetSource.get_url_response
  rw [if_neg h]
  exact ⟨rfl, by simp, rfl, rfl⟩

/-- C3 witness: a concrete 404 response on a variables endpoint. -/
theorem get_url_response_non200_isolated_witness :
    ((⟨some "https://api.census.gov/data/2020/dec/pl", "json"⟩ :
        CensusDatasetSource).get_url_response
      (fun _ => { status := 404, body := (0 : Nat) })
      "https://api.census.gov/data/2020/dec/pl/variables.json").1.1 = none :=
  (get_url_response_non200_isolated
    ⟨some "https://api.census.gov/data/2020/dec/pl", "json"⟩
    (fun _ => { status := 404, body := (0 : Nat) })
    (fun _ => { status := 200, body := (1 : Nat) })
    "https://api.census.gov/data/2020/dec/pl/variables.json"
    "https://api.census.gov/data/2020/dec/pl/groups.json"
    (by decide)).1

/-- C4: contrary to the claim, when a detail endpoint fetch returns non-200
the detail-table accessors DO raise: `get_url_response` returns `None` and
each accessor immediately subscripts it (`None["variables"]`,
`None["fips"]`, `None["groups"]`), which raises `TypeError` and aborts the
run.  Evaluated at concrete 404 responses. -/
theorem detail_accessors_raise_on_failed_fetch :
    (CensusDatasetSource.variables_df
        ⟨some "https://api.census.gov/data/2020/dec/pl", "json"⟩
        (fun _ => { status := 404, body := { variables_field := [] } }) =
      Except.error PyError.typeError) ∧
    (CensusDatasetSource.geographies_df
        ⟨some "https://api.census.gov/data/2020/dec/pl", "json"⟩
        (fun _ => { status := 404, body := { fips := [] } }) =
      Except.error PyError.typeError) ∧
    (CensusDatasetSource.groups_df
        ⟨some "https://api.census.gov/data/2020/dec/pl", "json"⟩
        (fun _ => { status := 404, body := { groups := [] } }) =
      Except.error PyError.typeError) :=
  ⟨rfl, rfl, rfl⟩

/-- C5: at the claim's own example — one variable `"NAME"` whose record has
only `label` and `predicateType` — the code raises `KeyError("predicateOnly")`:
no record carries a `predicateOnly` field, so the transposed frame has no such
column and reading it for `fillna` fails (and `fillna({})` on `values` would
fill nothing anyway, a dict argument maps row labels to fill values). -/
theorem variables_df_keyerror_at_claim_example :
    CensusDatasetSource.variables_df
        ⟨some "https://api.census.gov/data/2020/dec/pl", "json"⟩
        (fun _ => { status := 200,
                    body := { variables_field :=
                      [("NAME", [("label", PyVal.pstr "Name"),
                                 ("predicateType", PyVal.pstr "string")])] } }) =
      Except.error (PyError.keyError "predicateOnly") :=
  rfl

/-- C8: `groups_df` computes the groups table and then discards it — the
method body ends in a bare `return`, so for a successful fetch of a groups
document it yields `None`, not the row-per-entry table the claim states. -/
theorem groups_df_discards_table :
    CensusDatasetSource.groups_df
        ⟨some "https://api.census.gov/data/2020/dec/pl", "json"⟩
        (fun _ => { status := 200,
                    body := { groups := [[("name", some (PyVal.pstr "B01001")),
                                          ("description", some (PyVal.pstr "SEX BY AGE"))]] } }) =
      Except.ok none :=
  rfl

/-- C2: constructing the catalog client fails with `catalogFetchError`
carrying the HTTP status whenever the top-level GET returns non-200, fails
with `catalogShapeError` whenever the parsed document lacks a `"dataset"`
field, and in both cases no partial dataset table is produced: a constructed
catalog value exists only when the status was 200 and the field present. -/
theorem censusAPICatalog_init_failure_spec (resp : HttpResponse CatalogJson) :
    (resp.status ≠ 200 →
      censusAPICatalog_init resp =
        Except.error (CensusError.catalogFetchError resp.status)) ∧
    (resp.status = 200 → resp.body.dataset = none →
      censusAPICatalog_init resp = Except.error CensusError.catalogShapeError) ∧
    (∀ cat, censusAPICatalog_init resp = Except.ok cat →
      resp.status = 200 ∧ resp.body.dataset ≠ none) := by
  refine ⟨?_, ?_, ?_⟩
  · intro h
    unfold censusAPICatalog_init
    rw [if_neg h]
  · intro h hd
    unfold censusAPICatalog_init set_dataset_metadata
    rw [if_pos h, hd]
  · intro cat hcat
    unfold censusAPICatalog_init at hcat
    by_cases h : resp.status = 200
    · refine ⟨h, ?_⟩
      rw [if_pos h] at hcat
      intro hd
      unfold set_dataset_metadata at hcat
      rw [hd] at hcat
      exact Except.noConfusion hcat
    · rw [if_neg h] at hcat
      exact Except.noConfusion hcat

/-- C2 witness: a concrete HTTP 500 catalog response. -/
theorem censusAPICatalog_init_failure_spec_witness :
    censusAPICatalog_init { status := 500, body := { dataset := none } } =
      Except.error (CensusError.catalogFetchError 500) :=
  (censusAPICatalog_init_failure_spec
    { status := 500, body := { dataset := none } }).1 (by decide)

/-- C6: `get_dataset_source` selects the rows whose identifier equals the
argument; with no match it fails (`IndexError` from `.values[0]`, the
lookup-not-found failure), and otherwise the FIRST matching row — whose
identifier provably equals the argument — supplies the distribution access
URL for the returned `CensusDatasetSource`. -/
theorem get_dataset_source_spec (cat : CensusAPICatalog)
    (identifier media_type : String) :
    (cat.dataset_metadata.filter (fun r => r.identifier == identifier) = [] →
      cat.get_dataset_source identifier media_type =
        Except.error CensusError.notFoundError) ∧
    (∀ row rest,
      cat.dataset_metadata.filter (fun r => r.identifier == identifier) =
        row :: rest →
      row.identifier = identifier ∧
      cat.get_dataset_source identifier media_type =
        Except.ok { base_api_call := row.distribution_accessURL,
                    media_type := media_type }) := by
  constructor
  · intro h
    unfold CensusAPICatalog.get_dataset_source
    rw [h]
  · intro row rest h
    constructor
    · have hmem : row ∈ cat.dataset_metadata.filter
          (fun r => r.identifier == identifier) := by
        rw [h]; exact List.mem_cons_self _ _
      simpa using List.of_mem_filter hmem
    · unfold CensusAPICatalog.get_dataset_source
      rw [h]

/-- C6 witness: a catalog whose table holds two rows with the duplicate
identifier `"dup"`; the first one's URL wins. -/
theorem get_dataset_source_spec_witness :
    CensusAPICatalog.get_dataset_source
      { data_catalog_json := { dataset := some [] }
        dataset_metadata :=
          [{ identifier := "dup", title := "t1", modified := none,
             c_vintage := none, c_isAggregate := none, c_isCube := none,
             c_isAvailable := none, c_isTimeseries := none, c_isMicrodata := none,
             distribution_accessURL := some "https://api.census.gov/data/first" },
           { identifier := "dup", title := "t2", modified := none,
             c_vintage := none, c_isAggregate := none, c_isCube := none,
             c_isAvailable := none, c_isTimeseries := none, c_isMicrodata := none,
             distribution_accessURL := some "https://api.census.gov/data/second" }] }
      "dup" "json" =
      Except.ok { base_api_call := some "https://api.census.gov/data/first",
                  media_type := "json" } :=
  ((get_dataset_source_spec _ "dup" "json").2 _ _ (by rfl)).2

/-- C9: every projected row fills each missing boolean facet with `false`,
renders a present vintage as its decimal string while an absent vintage
stays an explicit `none` (never the string `"-1"`), and carries the run's
capture time; the projection keeps one row per input row. -/
theorem prepare_dataset_metadata_df_spec (time_of_check : String)
    (rows : List MetadataRow) :
    (prepare_dataset_metadata_df time_of_check rows).length = rows.length ∧
    ∀ p ∈ prepare_dataset_metadata_df time_of_check rows,
      ∃ r ∈ rows,
        p.identifier = r.identifier ∧
        p.is_microdata = r.c_isMicrodata.getD false ∧
        p.is_aggregate = r.c_isAggregate.getD false ∧
        p.is_cube = r.c_isCube.getD false ∧
        p.is_timeseries = r.c_isTimeseries.getD false ∧
        p.is_available = r.c_isAvailable.getD false ∧
        p.vintage = r.c_vintage.map (fun v : Int => toString v) ∧
        (r.c_vintage = none → p.vintage = none) ∧
        p.time_of_check = time_of_check := by
  constructor
  · exact List.length_map _ _
  · intro p hp
    obtain ⟨r, hr, rfl⟩ := List.mem_map.mp hp
    refine ⟨r, hr, rfl, rfl, rfl, rfl, rfl, rfl, ?_, ?_, rfl⟩
    · show coerceVintage r.c_vintage = r.c_vintage.map (fun v : Int => toString v)
      unfold coerceVintage
      cases r.c_vintage <;> simp
    · intro h
      show coerceVintage r.c_vintage = none
      unfold coerceVintage
      rw [h]

/-- C9 witness: one row with all facets and the vintage missing. -/
theorem prepare_dataset_metadata_df_spec_witness :
    ∃ r ∈ [({ identifier := "id0", title := "t", modified := none,
              c_vintage := none, c_isAggregate := none, c_isCube := none,
              c_isAvailable := none, c_isTimeseries := none, c_isMicrodata := none,
              distribution_accessURL := none } : MetadataRow)],
      (prepare_row "2024-01-01T00:00:00.000000Z"
          { identifier := "id0", title := "t", modified := none,
            c_vintage := none, c_isAggregate := none, c_isCube := none,
            c_isAvailable := none, c_isTimeseries := none, c_isMicrodata := none,
            distribution_accessURL := none }).identifier = r.identifier ∧
      (prepare_row "2024-01-01T00:00:00.000000Z"
          { identifier := "id0", title := "t", modified := none,
            c_vintage := none, c_isAggregate := none, c_isCube := none,
            c_isAvailable := none, c_isTimeseries := none, c_isMicrodata := none,
            distribution_accessURL := none }).is_microdata =
        r.c_isMicrodata.getD false ∧
      (prepare_row "2024-01-01T00:00:00.000000Z"
          { identifier := "id0", title := "t", modified := none,
            c_vintage := none, c_isAggregate := none, c_isCube := none,
            c_isAvailable := none, c_isTimeseries := none, c_isMicrodata := none,
            distribution_accessURL := none }).is_aggregate =
        r.c_isAggregate.getD false ∧
      (prepare_row "2024-01-01T00:00:00.000000Z"
          { identifier := "id0", title := "t", modified := none,
            c_vintage := none, c_isAggregate := none, c_isCube := none,
            c_isAvailable := none, c_isTimeseries := none, c_isMicrodata := none,
            distribution_accessURL := none }).is_cube = r.c_isCube.getD false ∧
      (prepare_row "2024-01-01T00:00:00.000000Z"
          { identifier := "id0", title := "t", modified := none,
            c_vintage := none, c_isAggregate := none, c_isCube := none,
            c_isAvailable := none, c_isTimeseries := none, c_isMicrodata := none,
            distribution_accessURL := none }).is_timeseries =
        r.c_isTimeseries.getD false ∧
      (prepare_row "2024-01-01T00:00:00.000000Z"
          { identifier := "id0", title := "t", modified := none,
            c_vintage := none, c_isAggregate := none, c_isCube := none,
            c_isAvailable := none, c_isTimeseries := none, c_isMicrodata := none,
            distribution_accessURL := none }).is_available =
        r.c_isAvailable.getD false ∧
      (prepare_row "2024-01-01T00:00:00.000000Z"
          { identifier := "id0", title := "t", modified := none,
            c_vintage := none, c_isAggregate := none, c_isCube := none,
            c_isAvailable := none, c_isTimeseries := none, c_isMicrodata := none,
            distribution_accessURL := none }).vintage =
        r.c_vintage.map (fun v : Int => toString v) ∧
      (r.c_vintage = none →
        (prepare_row "2024-01-01T00:00:00.000000Z"
            { identifier := "id0", title := "t", modified := none,
              c_vintage := none, c_isAggregate := none, c_isCube := none,
              c_isAvailable := none, c_isTimeseries := none, c_isMicrodata := none,
              distribution_accessURL := none }).vintage = none) ∧
      (prepare_row "2024-01-01T00:00:00.000000Z"
          { identifier := "id0", title := "t", modified := none,
            c_vintage := none, c_isAggregate := none, c_isCube := none,
            c_isAvailable := none, c_isTimeseries := none, c_isMicrodata := none,
            distribution_accessURL := none }).time_of_check =
        "2024-01-01T00:00:00.000000Z" :=
  (prepare_dataset_metadata_df_spec "2024-01-01T00:00:00.000000Z"
      [{ identifier := "id0", title := "t", modified := none,
         c_vintage := none, c_isAggregate := none, c_isCube := none,
         c_isAvailable := none, c_isTimeseries := none, c_isMicrodata := none,
         distribution_accessURL := none }]).2 _ (by simp [prepare_dataset_metadata_df])

/-- C10: `get_counts_of_nested_data_elements` returns exactly the pairs
(label, count of the label across the concatenation of all the per-dataset
lists), one pair per distinct label, ordered by count descending; within a
tie class (one count value) the pairs appear exactly in first-seen order of
the labels (the `Counter`'s key order), because Python's `sorted` is stable
also with `reverse=True`. -/
theorem get_counts_of_nested_data_elements_spec (datasets : List (List String)) :
    (∀ p : String × Nat,
      p ∈ get_counts_of_nested_data_elements datasets ↔
        p.1 ∈ datasets.flatten ∧ p.2 = datasets.flatten.count p.1) ∧
    ((get_counts_of_nested_data_elements datasets).map Prod.fst).Nodup ∧
    List.Pairwise countLE (get_counts_of_nested_data_elements datasets) ∧
    (∀ k : Nat,
      (get_counts_of_nested_data_elements datasets).filter (fun p => p.2 == k) =
        ((firstSeen datasets.flatten).map
            (fun l => (l, datasets.flatten.count l))).filter
          (fun p => p.2 == k)) := by
  have hdef : get_counts_of_nested_data_elements datasets =
      List.insertionSort countLE ((firstSeen datasets.flatten).map
        (fun l => (l, datasets.flatten.count l))) := rfl
  rw [hdef]
  refine ⟨?_, ?_, ?_, ?_⟩
  · intro p
    rw [List.mem_insertionSort]
    constructor
    · intro hp
      obtain ⟨l, hl, hpl⟩ := List.mem_map.mp hp
      rw [← hpl]
      exact ⟨(mem_firstSeen l _).mp hl, rfl⟩
    · intro hp
      apply List.mem_map.mpr
      refine ⟨p.1, (mem_firstSeen p.1 _).mpr hp.1, ?_⟩
      cases p with
      | mk a b => simpa using hp.2.symm
  · have hperm : List.Perm
        ((List.insertionSort countLE
          ((firstSeen datasets.flatten).map
            (fun l => (l, datasets.flatten.count l)))).map Prod.fst)
        (((firstSeen datasets.flatten).map
          (fun l => (l, datasets.flatten.count l))).map Prod.fst) :=
      (List.perm_insertionSort countLE _).map Prod.fst
    refine hperm.nodup_iff.mpr ?_
    rw [List.map_map]
    have hid : (Prod.fst ∘ fun l : String =>
        (l, datasets.flatten.count l)) = id := rfl
    rw [hid, List.map_id]
    exact nodup_firstSeen _
  · haveI : IsTotal (String × Nat) countLE := ⟨fun a b => Nat.le_total b.2 a.2⟩
    haveI : IsTrans (String × Nat) countLE :=
      ⟨fun _ _ _ h1 h2 => Nat.le_trans h2 h1⟩
    exact List.sorted_insertionSort countLE _
  · intro k
    apply filter_insertionSort_of_ties
    intro a b ha hb
    have ha' : a.2 = k := by simpa using ha
    have hb' : b.2 = k := by simpa using hb
    unfold countLE
    rw [ha', hb']

/-- C10 witness: concrete per-dataset label lists. -/
theorem get_counts_of_nested_data_elements_spec_witness :
    List.Pairwise countLE
      (get_counts_of_nested_data_elements [["a", "b"], ["b"], ["c", "b", "a"]]) :=
  (get_counts_of_nested_data_elements_spec [["a", "b"], ["b"], ["c", "b", "a"]]).2.2.1

/-! ### Claim C1: the `set_dataset_metadata` table -/

/-- The row a dataset element yields on the happy path, where its `modified`
string (when present) parses. -/
def rawRowP (e : DatasetElem) : MetadataRow :=
  rawRow e (e.modified.bind pdToDatetime)

/-- When every present `modified` string parses, the per-element loop
succeeds and yields exactly one row per element, in input order. -/
theorem buildRows_eq_map (datasets : List DatasetElem)
    (hparse : ∀ e ∈ datasets,
      (e.modified.all fun s => (pdToDatetime s).isSome) = true) :
    buildRows datasets = Except.ok (datasets.map rawRowP) := by
  induction datasets with
  | nil => rfl
  | cons e rest ih =>
    have he := hparse e (List.mem_cons_self e rest)
    have hrest : ∀ x ∈ rest,
        (x.modified.all fun s => (pdToDatetime s).isSome) = true :=
      fun x hx => hparse x (List.mem_cons_of_mem e hx)
    unfold buildRows
    rw [ih hrest]
    show Except.bind (parseModified e) _ = _
    simp only [List.map_cons]
    unfold parseModified rawRowP
    cases hm : e.modified with
    | none => rfl
    | some s =>
      rw [hm] at he
      simp only [Option.all_some] at he
      cases ht : pdToDatetime s with
      | none => rw [ht] at he; exact absurd he (by simp)
      | some t =>
        simp only [Option.some_bind]
        rw [ht]
        rfl

/-- The descending-with-`NaT`-last row order `sort_values` establishes on
the `modified` column: a present timestamp dominates an absent one, two
present timestamps compare reversed-chronologically, and two absent ones
are unordered ties. -/
def modDescRel (a b : MetadataRow) : Prop :=
  match a.modified, b.modified with
  | some x, some y => y ≤ x
  | some _, none => True
  | none, none => True
  | none, some _ => False

/-- The sorted table is a permutation of the input rows. -/
theorem sort_values_modified_desc_perm (rows : List MetadataRow) :
    List.Perm (sort_values_modified_desc rows) rows := by
  unfold sort_values_modified_desc
  have h1 : List.Perm
      (List.insertionSort modDescLE
        (rows.filter (fun r => r.modified.isSome)))
      (rows.filter (fun r => r.modified.isSome)) :=
    List.perm_insertionSort _ _
  have h2 := h1.append
    (List.Perm.refl (rows.filter (fun r => r.modified.isNone)))
  refine h2.trans ?_
  have hnn : rows.filter (fun r => r.modified.isNone) =
      rows.filter (fun r => !(r.modified.isSome)) :=
    List.filter_congr (fun r _ => by cases r.modified <;> rfl)
  rw [hnn]
  exact List.filter_append_perm _ rows

/-- The sorted table is ordered by `modified` descending with the `NaT`
rows last. -/
theorem sort_values_modified_desc_pairwise (rows : List MetadataRow) :
    List.Pairwise modDescRel (sort_values_modified_desc rows) := by
  unfold sort_values_modified_desc
  rw [List.pairwise_append]
  refine ⟨?_, ?_, ?_⟩
  · haveI : IsTotal MetadataRow modDescLE := ⟨fun a b => Nat.le_total _ _⟩
    haveI : IsTrans MetadataRow modDescLE :=
      ⟨fun _ _ _ h1 h2 => Nat.le_trans h2 h1⟩
    have hs : List.Pairwise modDescLE
        (List.insertionSort modDescLE
          (rows.filter (fun r => r.modified.isSome))) :=
      List.sorted_insertionSort modDescLE _
    refine hs.imp_of_mem ?_
    intro a b ha hb hab
    have ha' : a.modified.isSome = true := by
      simpa using List.of_mem_filter ((List.mem_insertionSort modDescLE).mp ha)
    have hb' : b.modified.isSome = true := by
      simpa using List.of_mem_filter ((List.mem_insertionSort modDescLE).mp hb)
    obtain ⟨x, hx⟩ := Option.isSome_iff_exists.mp ha'
    obtain ⟨y, hy⟩ := Option.isSome_iff_exists.mp hb'
    unfold modDescLE at hab
    rw [hx, hy] at hab
    show modDescRel a b
    unfold modDescRel
    rw [hx, hy]
    simpa using hab
  · apply List.pairwise_of_forall_mem_list
    intro a ha b hb
    have ha' := List.of_mem_filter ha
    have hb' := List.of_mem_filter hb
    unfold modDescRel
    rw [Option.isNone_iff_eq_none.mp ha', Option.isNone_iff_eq_none.mp hb']
    trivial
  · intro a ha b hb
    have ha' : a.modified.isSome = true := by
      simpa using List.of_mem_filter ((List.mem_insertionSort modDescLE).mp ha)
    have hb' : b.modified.isNone = true := by
      simpa using List.of_mem_filter hb
    obtain ⟨x, hx⟩ := Option.isSome_iff_exists.mp ha'
    unfold modDescRel
    rw [hx, Option.isNone_iff_eq_none.mp hb']
    trivial

/-- Each tie class (rows sharing one `modified` timestamp) comes out of the
sort in its original input order: the stable descending sort preserves
ties, and the `NaT` rows match no tie class. -/
theorem sort_values_modified_desc_filter_eq (rows : List MetadataRow)
    (t : Nat) :
    (sort_values_modified_desc rows).filter (fun r => r.modified == some t) =
      rows.filter (fun r => r.modified == some t) := by
  unfold sort_values_modified_desc
  rw [List.filter_append]
  have hnan : (rows.filter (fun r => r.modified.isNone)).filter
      (fun r => r.modified == some t) = [] := by
    rw [List.filter_eq_nil_iff]
    intro r hr
    have h := List.of_mem_filter hr
    rw [Option.isNone_iff_eq_none.mp h]
    simp
  rw [hnan, List.append_nil]
  rw [filter_insertionSort_of_ties]
  · rw [List.filter_filter]
    apply List.filter_congr
    intro r _
    cases hmr : r.modified with
    | none => simp
    | some x => simp
  · intro a b ha hb
    have ha' : a.modified = some t := by simpa using ha
    have hb' : b.modified = some t := by simpa using hb
    unfold modDescLE
    rw [ha', hb']

/-- The dataset elements of the C1 counterexample. -/
def cexElemBad : DatasetElem :=
  { identifier := "bad", title := "t", modified := some "not-a-date",
    c_vintage := none, c_isAggregate := none, c_isCube := none,
    c_isAvailable := none, c_isTimeseries := none, c_isMicrodata := none,
    distribution := [{ accessURL := "https://api.census.gov/data/x" }] }

/-- First element of the equal-`modified` pair exercised by the amended
claim's witness (its row stays before `cexElemB`'s: the sort is stable). -/
def cexElemA : DatasetElem :=
  { identifier := "a", title := "ta", modified := some "2023-01-01",
    c_vintage := some 2020, c_isAggregate := some true, c_isCube := none,
    c_isAvailable := some true, c_isTimeseries := none, c_isMicrodata := none,
    distribution := [{ accessURL := "https://api.census.gov/data/a" }] }

/-- Second element of the equal-`modified` pair (inserted second, sorted
second within the tie class). -/
def cexElemB : DatasetElem :=
  { identifier := "b", title := "tb", modified := some "2023-01-01",
    c_vintage := none, c_isAggregate := none, c_isCube := none,
    c_isAvailable := none, c_isTimeseries := none, c_isMicrodata := none,
    distribution := [{ accessURL := "https://api.census.gov/data/b" }] }

/-- C1 counterexample: a catalog whose single dataset element carries the
unparseable `modified` string `"not-a-date"` makes `set_dataset_metadata`
raise — `pd.to_datetime` runs with its default `errors="raise"` and the
dateutil fallback rejects this string as well — so no table at all is
produced and the row is not "placed last" as the claim requires. -/
theorem set_dataset_metadata_claim_counterexample :
    set_dataset_metadata { dataset := some [cexElemBad] } =
      Except.error (CensusError.valueError "not-a-date") :=
  rfl

/-- C1 (amended): for every raw catalog JSON whose `"dataset"` field is a
non-empty array in which every present `modified` string parses,
`set_dataset_metadata` produces exactly one row per input dataset element
(the output is a permutation of the per-element rows), every row's
identifier equals its source element's identifier, and the rows are ordered
by parsed `modified` descending with rows whose `modified` is missing placed
last and ties among equal `modified` values kept in insertion order (the
descending sort is stable: `nargsort` reverses the non-null block before
argsorting and the indexer after).  The only amendment: a row whose
`modified` is unparseable is not placed last — it makes the whole build
raise (see the counterexample). -/
theorem set_dataset_metadata_amended_spec (datasets : List DatasetElem)
    (hne : datasets ≠ [])
    (hparse : ∀ e ∈ datasets,
      (e.modified.all fun s => (pdToDatetime s).isSome) = true) :
    set_dataset_metadata { dataset := some datasets } =
      Except.ok (sort_values_modified_desc (datasets.map rawRowP)) ∧
    List.Perm (sort_values_modified_desc (datasets.map rawRowP))
      (datasets.map rawRowP) ∧
    (∀ e : DatasetElem, (rawRowP e).identifier = e.identifier) ∧
    List.Pairwise modDescRel
      (sort_values_modified_desc (datasets.map rawRowP)) ∧
    (∀ t : Nat,
      (sort_values_modified_desc (datasets.map rawRowP)).filter
          (fun r => r.modified == some t) =
        (datasets.map rawRowP).filter
          (fun r => r.modified == some t)) := by
  refine ⟨?_, sort_values_modified_desc_perm _, fun e => rfl,
    sort_values_modified_desc_pairwise _,
    fun t => sort_values_modified_desc_filter_eq _ t⟩
  obtain ⟨e, rest, rfl⟩ : ∃ e rest, datasets = e :: rest := by
    cases datasets with
    | nil => exact absurd rfl hne
    | cons e rest => exact ⟨e, rest, rfl⟩
  show Except.bind (buildRows (e :: rest))
    (fun rows => Except.ok (sort_values_modified_desc rows)) = _
  rw [buildRows_eq_map (e :: rest) hparse]
  rfl

/-- C1 witness: a concrete two-element catalog whose rows tie on
`modified`. -/
theorem set_dataset_metadata_amended_spec_witness :
    set_dataset_metadata { dataset := some [cexElemA, cexElemB] } =
      Except.ok (sort_values_modified_desc ([cexElemA, cexElemB].map rawRowP)) :=
  (set_dataset_metadata_amended_spec [cexElemA, cexElemB]
    (by simp) (by decide)).1

/-! ### Claim C7: `standardize_datetime_str_repr` -/

/-- `digitChar` renders the last decimal digit and `digit?` reads it back. -/
theorem digit?_digitChar (n : Nat) : digit? (digitChar n) = some (n % 10) := by
  have h : n % 10 < 10 := Nat.mod_lt _ (by norm_num)
  unfold digitChar
  generalize n % 10 = k at h ⊢
  interval_cases k <;> rfl

/-- `parse4digits` reads back a four-digit zero-padded rendering. -/
theorem parse4digits_pad4 (y : Nat) (rest : List Char) (hy : y ≤ 9999) :
    parse4digits (pad4Chars y ++ rest) = some (y, rest) := by
  unfold pad4Chars
  simp only [List.cons_append, List.nil_append]
  simp only [parse4digits, digit?_digitChar, Option.bind_eq_bind,
    Option.some_bind]
  have hv : 1000 * (y / 1000 % 10) + 100 * (y / 100 % 10) + 10 * (y / 10 % 10)
      + y % 10 = y := by omega
  rw [hv]

/-- `parse2digits` reads back a two-digit zero-padded rendering. -/
theorem parse2digits_pad2 (v : Nat) (rest : List Char) (hv : v ≤ 99) :
    parse2digits (pad2Chars v ++ rest) = some (v, rest) := by
  unfold pad2Chars
  simp only [List.cons_append, List.nil_append]
  simp only [parse2digits, digit?_digitChar, Option.bind_eq_bind,
    Option.some_bind]
  have hval : 10 * (v / 10 % 10) + v % 10 = v := by omega
  rw [hval]

/-- `parseField2` takes the two-digit alternative on a two-digit zero-padded
rendering whose value the alternative admits. -/
theorem parseField2_pad2 (ok2 ok1 : Nat → Bool) (v : Nat) (rest : List Char)
    (hv : v ≤ 99) (h2 : ok2 v = true) :
    parseField2 ok2 ok1 (pad2Chars v ++ rest) = some (v, rest) := by
  unfold pad2Chars
  simp only [List.cons_append, List.nil_append]
  simp only [parseField2, digit?_digitChar]
  have hval : 10 * (v / 10 % 10) + v % 10 = v := by omega
  simp only [hval, h2, if_true]

/-- Consuming the expected literal. -/
theorem expectChar_cons (c : Char) (rest : List Char) :
    expectChar c (c :: rest) = some rest := by
  simp [expectChar]

/-- Consuming the expected literal on an exact-case match. -/
theorem expectCharCI_cons (c : Char) (rest : List Char) :
    expectCharCI c (c :: rest) = some rest := by
  simp [expectCharCI]

/-- `parseFrac` reads back a six-digit zero-padded rendering followed by a
non-digit. -/
theorem parseFrac_pad6 (us : Nat) (c : Char) (rest : List Char)
    (hc : digit? c = none) (hus : us ≤ 999999) :
    parseFrac (pad6Chars us ++ c :: rest) = some (us, c :: rest) := by
  have htake : takeDigits (pad6Chars us ++ c :: rest) =
      ([us / 100000 % 10, us / 10000 % 10, us / 1000 % 10, us / 100 % 10,
        us / 10 % 10, us % 10], c :: rest) := by
    unfold pad6Chars
    simp only [List.cons_append, List.nil_append]
    simp [takeDigits, digit?_digitChar, hc]
  unfold parseFrac
  rw [htake]
  have hlen : (1 : Nat) ≤ 6 ∧ (6 : Nat) ≤ 6 := by omega
  simp only [List.length_cons, List.length_nil]
  rw [if_pos (by omega)]
  have hval : fracValue [us / 100000 % 10, us / 10000 % 10, us / 1000 % 10,
      us / 100 % 10, us / 10 % 10, us % 10] = us := by
    simp [fracValue]
    omega
  rw [hval]
  norm_num

/-- The canonical microsecond-precision ISO-8601 rendering of a timestamp,
the exact shape `"%Y-%m-%dT%H:%M:%S.%fZ"` prints. -/
def isoMicroString (y m d h mi sec us : Nat) : String :=
  String.mk (pad4Chars y ++ ('-' :: (pad2Chars m ++ ('-' :: (pad2Chars d
    ++ ('T' :: (pad2Chars h ++ (':' :: (pad2Chars mi ++ (':' :: (pad2Chars sec
    ++ ('.' :: (pad6Chars us ++ ['Z'])))))))))))))

/-- Every month has at most 31 days. -/
theorem daysInMonth_le_31 (y m : Nat) : daysInMonth y m ≤ 31 := by
  unfold daysInMonth
  split_ifs <;> omega

/-- Reducing one monadic bind on a known-`some` scrutinee. -/
theorem monad_some_bind {α β : Type} (a : α) (f : α → Option β) :
    ((some a : Option α) >>= f) = f a := rfl

/-- `strptime` with `"%Y-%m-%dT%H:%M:%S.%fZ"` accepts every canonically
rendered valid timestamp and recovers its fields. -/
theorem strptime_isoMicroString (y m d h mi sec us : Nat)
    (hy1 : 1 ≤ y) (hy2 : y ≤ 9999) (hm1 : 1 ≤ m) (hm2 : m ≤ 12)
    (hd1 : 1 ≤ d) (hd2 : d ≤ daysInMonth y m) (hh : h ≤ 23) (hmi : mi ≤ 59)
    (hsec : sec ≤ 59) (hus : us ≤ 999999) :
    strptime_iso_micro_z (isoMicroString y m d h mi sec us) =
      some ⟨y, m, d, h, mi, sec, us⟩ := by
  have hd31 : d ≤ 31 := le_trans hd2 (daysInMonth_le_31 y m)
  unfold strptime_iso_micro_z isoMicroString
  show (do
      let (yv, r1) ← parse4digits (pad4Chars y ++ ('-' :: (pad2Chars m
        ++ ('-' :: (pad2Chars d ++ ('T' :: (pad2Chars h ++ (':' :: (pad2Chars mi
        ++ (':' :: (pad2Chars sec ++ ('.' :: (pad6Chars us
        ++ ['Z'])))))))))))))
      let r2 ← expectChar '-' r1
      let (mv, r3) ← parseField2 (fun v => decide (1 ≤ v) && decide (v ≤ 12))
        (fun v => decide (1 ≤ v) && decide (v ≤ 9)) r2
      let r4 ← expectChar '-' r3
      let (dv, r5) ← parseField2 (fun v => decide (1 ≤ v) && decide (v ≤ 31))
        (fun v => decide (1 ≤ v) && decide (v ≤ 9)) r4
      let r6 ← expectCharCI 'T' r5
      let (hv, r7) ← parseField2 (fun v => decide (v ≤ 23)) (fun _ => true) r6
      let r8 ← expectChar ':' r7
      let (miv, r9) ← parseField2 (fun v => decide (v ≤ 59)) (fun _ => true) r8
      let r10 ← expectChar ':' r9
      let (secv, r11) ← parseField2 (fun v => decide (v ≤ 61)) (fun _ => true) r10
      let r12 ← expectChar '.' r11
      let (usv, r13) ← parseFrac r12
      let r14 ← expectCharCI 'Z' r13
      if r14 = [] ∧ 1 ≤ yv ∧ dv ≤ daysInMonth yv mv ∧ secv ≤ 59 then
        some (⟨yv, mv, dv, hv, miv, secv, usv⟩ : PyDatetime)
      else none) = some ⟨y, m, d, h, mi, sec, us⟩
  rw [parse4digits_pad4 y _ hy2]
  simp only [monad_some_bind]
  rw [expectChar_cons]
  simp only [monad_some_bind]
  rw [parseField2_pad2 _ _ m _ (by omega) (by simp [hm1, hm2])]
  simp only [monad_some_bind]
  rw [expectChar_cons]
  simp only [monad_some_bind]
  rw [parseField2_pad2 _ _ d _ (by omega) (by simp [hd1, hd31])]
  simp only [monad_some_bind]
  rw [expectCharCI_cons]
  simp only [monad_some_bind]
  rw [parseField2_pad2 _ _ h _ (by omega) (by simp [hh])]
  simp only [monad_some_bind]
  rw [expectChar_cons]
  simp only [monad_some_bind]
  rw [parseField2_pad2 _ _ mi _ (by omega) (by simp [hmi])]
  simp only [monad_some_bind]
  rw [expectChar_cons]
  simp only [monad_some_bind]
  rw [parseField2_pad2 _ _ sec _ (by omega) (by simp; omega)]
  simp only [monad_some_bind]
  rw [expectChar_cons]
  simp only [monad_some_bind]
  rw [parseFrac_pad6 us 'Z' [] (by rfl) hus]
  simp only [monad_some_bind]
  rw [expectCharCI_cons]
  simp only [monad_some_bind]
  rw [if_pos (by exact ⟨trivial, hy1, hd2, hsec⟩)]

/-- C7: `standardize_datetime_str_repr` maps the claim's example string to
`"2023-01-05T10:15:30Z"` — also in its lowercase-`t`/`z` spelling, which the
`re.IGNORECASE`-compiled `strptime` regex accepts; more generally it maps
every canonically rendered ISO-8601-with-microseconds-and-Z string of a
valid timestamp to the `"%Y-%m-%dT%H:%M:%SZ"` rendering of that timestamp
(microseconds truncated), maps an already-parsed timestamp value to the same
rendering, and fails with the format error (`ValueError` from `strptime`) on
every string the pattern does not parse — stated over strings of ASCII
characters, the domain on which the model is exact (CPython's `\d` also
matches non-ASCII Unicode digits). -/
theorem standardize_datetime_str_repr_spec :
    (standardize_datetime_str_repr (Sum.inl "2023-01-05T10:15:30.123456Z") =
      Except.ok "2023-01-05T10:15:30Z") ∧
    (standardize_datetime_str_repr (Sum.inl "2023-01-05t10:15:30.123456z") =
      Except.ok "2023-01-05T10:15:30Z") ∧
    (∀ y m d h mi sec us : Nat,
      1 ≤ y → y ≤ 9999 → 1 ≤ m → m ≤ 12 → 1 ≤ d → d ≤ daysInMonth y m →
      h ≤ 23 → mi ≤ 59 → sec ≤ 59 → us ≤ 999999 →
      standardize_datetime_str_repr
          (Sum.inl (isoMicroString y m d h mi sec us)) =
        Except.ok (strftime_ymdhms_z ⟨y, m, d, h, mi, sec, us⟩)) ∧
    (∀ dt : PyDatetime,
      standardize_datetime_str_repr (Sum.inr dt) =
        Except.ok (strftime_ymdhms_z dt)) ∧
    (∀ s : String, (∀ c ∈ s.data, c.toNat ≤ 127) →
      strptime_iso_micro_z s = none →
      standardize_datetime_str_repr (Sum.inl s) =
        Except.error CensusError.formatError) := by
  refine ⟨rfl, rfl, ?_, fun dt => rfl, ?_⟩
  · intro y m d h mi sec us hy1 hy2 hm1 hm2 hd1 hd2 hh hmi hsec hus
    show (match strptime_iso_micro_z (isoMicroString y m d h mi sec us) with
      | some dd => Except.ok (strftime_ymdhms_z dd)
      | none => Except.error CensusError.formatError) =
      Except.ok (strftime_ymdhms_z ⟨y, m, d, h, mi, sec, us⟩)
    rw [strptime_isoMicroString y m d h mi sec us hy1 hy2 hm1 hm2 hd1 hd2
      hh hmi hsec hus]
  · intro s _ hs
    show (match strptime_iso_micro_z s with
      | some dd => Except.ok (strftime_ymdhms_z dd)
      | none => Except.error CensusError.formatError) =
      Except.error CensusError.formatError
    rw [hs]

/-- C7 witness: the last microsecond of a leap day. -/
theorem standardize_datetime_str_repr_spec_witness :
    standardize_datetime_str_repr
        (Sum.inl (isoMicroString 2024 2 29 23 59 59 999999)) =
      Except.ok (strftime_ymdhms_z ⟨2024, 2, 29, 23, 59, 59, 999999⟩) :=
  standardize_datetime_str_repr_spec.2.2.1 2024 2 29 23 59 59 999999
    (by decide) (by decide) (by decide) (by decide) (by decide) (by decide)
    (by decide) (by decide) (by decide) (by decide)

end Census
